import Mathlib

/-!
Verification development for the CFProtected shared-member registry.

The JavaScript source (index.js: `share`, `accessor`, `abstract`, `final`)
is shallowly embedded: a heap of objects with prototype chains and property
descriptors, a fueled evaluator for the small closure bodies the scenarios
need, and direct translations of the registry operations.
-/

namespace CFProtected

abbrev Addr := Nat

/-- Property keys: strings, plus the private ACCESSOR symbol used to tag
accessor descriptors. -/
inductive Key
  | str (s : String)
  | accessorSym
deriving DecidableEq, Repr

/-- JavaScript values relevant to the library: primitives and object
references.  Objects (including functions and classes) live in the heap. -/
inductive Value
  | undef
  | jsNull
  | num (n : Int)
  | vstr (s : String)
  | bool (b : Bool)
  | addr (a : Addr)
deriving DecidableEq, Repr

/-- Bodies of the arrow functions appearing in members maps: constants,
reads of a saved private field slot, property gets/sets, zero-argument
method calls, numeric addition, and positional arguments. -/
inductive Expr
  | const (v : Value)
  | arg (i : Nat)
  | getSlot (name : String)
  | getProp (o : Expr) (k : Key)
  | setProp (o : Expr) (k : Key) (rhs : Expr)
  | callMethod (o : Expr) (k : Key)
  | add (a b : Expr)
deriving DecidableEq, Repr

/-- Function bodies: user expressions, or the generated facade accessors
`get() { return protData[k]; }` / `set(v) { protData[k] = v; }` that close
over the protected data object. -/
inductive FnBody
  | exprBody (e : Expr)
  | facadeGet (data : Addr) (k : Key)
  | facadeSet (data : Addr) (k : Key)
deriving DecidableEq, Repr

/-- A closure: the body plus the receiver captured by `Function.bind`. -/
structure Closure where
  boundThis : Option Value := none
  body : FnBody
deriving DecidableEq, Repr

/-- Property content: a data property or an accessor pair. -/
inductive PropVal
  | dataVal (v : Value) (writable : Bool)
  | accessor (get set : Value)
deriving DecidableEq, Repr

/-- A full property descriptor as stored on an object. -/
structure PropDesc where
  val : PropVal
  enumerable : Bool
  configurable : Bool
deriving DecidableEq, Repr

/-- A partial descriptor as passed to `Object.defineProperty`. -/
structure PartialDesc where
  value : Option Value := none
  writable : Option Bool := none
  getf : Option Value := none
  setf : Option Value := none
  enumerable : Option Bool := none
  configurable : Option Bool := none
deriving DecidableEq, Repr

/-- Construction behaviour of a callable object: a plain base class, a
default derived constructor, the guard class produced by `abstract`, or the
construction trap of the proxy produced by `final`. -/
inductive CtorKind
  | plainBase
  | derivedDefault (parent : Addr)
  | abstractGuard (parent : Addr)
  | finalGuard (target : Addr)
deriving DecidableEq, Repr

/-- A heap object: prototype link, own properties in insertion order, an
optional closure (functions), an optional construction behaviour (classes),
and, for the `final` proxy, the wrapped class its get trap forwards to. -/
structure JsObject where
  proto : Value := Value.jsNull
  props : List (Key × PropDesc) := []
  call : Option Closure := none
  ctor : Option CtorKind := none
  finalTarget : Option Addr := none
deriving DecidableEq, Repr

/-- One registry record: the protected data object, the facade handed back
to the registering layer (`inheritance` in the source), and the `$uper`
facade. -/
structure Record where
  data : Addr
  inheritance : Value
  uper : Addr
deriving DecidableEq, Repr

/-- Process-wide state: the heap, the `memos` WeakMap (class address to
table id, table id to per-owner records; the indirection models WeakMap
reference aliasing done by the guards), and the private-field slots the
scenario closures read. -/
structure State where
  heap : List (Addr × JsObject)
  nextAddr : Addr
  memoKeys : List (Addr × Nat)
  tables : List (Nat × List (Addr × Record))
  nextTable : Nat
  slots : List (String × Value)
deriving DecidableEq, Repr

def State.empty : State := ⟨[], 0, [], [], 0, []⟩

def lookupFirst {κ β : Type} [DecidableEq κ] (k : κ) : List (κ × β) → Option β
  | [] => none
  | (a, b) :: t => if a = k then some b else lookupFirst k t

def setFirst {κ β : Type} [DecidableEq κ] (k : κ) (v : β) : List (κ × β) → List (κ × β)
  | [] => [(k, v)]
  | (a, b) :: t => if a = k then (k, v) :: t else (a, b) :: setFirst k v t

def State.getObj (st : State) (a : Addr) : Option JsObject :=
  lookupFirst a st.heap

def State.setObj (st : State) (a : Addr) (o : JsObject) : State :=
  { st with heap := setFirst a o st.heap }

def State.alloc (st : State) (o : JsObject) : State × Addr :=
  ({ st with heap := (st.nextAddr, o) :: st.heap, nextAddr := st.nextAddr + 1 },
   st.nextAddr)

def State.setSlot (st : State) (n : String) (v : Value) : State :=
  { st with slots := setFirst n v st.slots }

def JsObject.getOwn (o : JsObject) (k : Key) : Option PropDesc :=
  lookupFirst k o.props

def JsObject.setOwn (o : JsObject) (k : Key) (d : PropDesc) : JsObject :=
  { o with props := setFirst k d o.props }

/-- Truthiness of a value, as used by the validation checks. -/
def truthy : Value → Bool
  | Value.undef => false
  | Value.jsNull => false
  | Value.num n => decide (n ≠ 0)
  | Value.vstr s => decide (s ≠ "")
  | Value.bool b => b
  | Value.addr _ => true

def isCallableObj (o : JsObject) : Bool :=
  o.call.isSome || o.ctor.isSome

/-- typeof v == "function". -/
def typeofFunction (st : State) (v : Value) : Bool :=
  match v with
  | Value.addr a =>
    match st.getObj a with
    | some o => isCallableObj o
    | none => false
  | _ => false

/-- typeof v == "object" (true of null and of non-callable objects). -/
def typeofObject (st : State) (v : Value) : Bool :=
  match v with
  | Value.jsNull => true
  | Value.addr a =>
    match st.getObj a with
    | some o => !isCallableObj o
    | none => false
  | _ => false

/-- Object.getPrototypeOf; the `final` proxy forwards the operation to its
wrapped class. -/
def protoOfVal (st : State) (v : Value) : Value :=
  match v with
  | Value.addr a =>
    match st.getObj a with
    | some o =>
      match o.finalTarget with
      | some t =>
        match st.getObj t with
        | some ot => ot.proto
        | none => Value.jsNull
      | none => o.proto
    | none => Value.jsNull
  | _ => Value.jsNull

inductive JsError
  | typeError (msg : String)
deriving DecidableEq, Repr

/-- One step of the `key in obj` walk; the fueled recursion below ties the
knot through `Nat.rec` so that proofs can evaluate it by plain reduction. -/
def hasPropStep (go : State → Value → Key → Bool) (st : State) (v : Value) (k : Key) : Bool :=
  match v with
  | Value.addr a =>
    match st.getObj a with
    | some o =>
      match o.finalTarget with
      | some t => go st (Value.addr t) k
      | none => (o.getOwn k).isSome || go st o.proto k
    | none => false
  | _ => false

/-- The `key in obj` operator: walks the prototype chain over own keys.
The `final` proxy forwards `has` to its wrapped class. -/
def hasProp (fuel : Nat) : State → Value → Key → Bool :=
  Nat.rec (motive := fun _ => State → Value → Key → Bool)
    (fun _ _ _ => false) (fun _ ih => hasPropStep ih) fuel

/-- One step of the own-property walk used when building `$uper`. -/
def findOwnObjStep (go : State → Value → Key → Option Addr) (st : State) (v : Value) (k : Key) :
    Option Addr :=
  match v with
  | Value.addr a =>
    match st.getObj a with
    | some o =>
      if (o.getOwn k).isSome then some a else go st o.proto k
    | none => none
  | _ => none

/-- The `while (!obj.hasOwnProperty(key)) obj = Object.getPrototypeOf(obj)`
walk used when building `$uper`: the first object in the chain owning `k`. -/
def findOwnObj (fuel : Nat) : State → Value → Key → Option Addr :=
  Nat.rec (motive := fun _ => State → Value → Key → Option Addr)
    (fun _ _ _ => none) (fun _ ih => findOwnObjStep ih) fuel

def isAccessorPartial (p : PartialDesc) : Bool :=
  p.getf.isSome || p.setf.isSome

def isDataPartial (p : PartialDesc) : Bool :=
  p.value.isSome || p.writable.isSome

/-- ValidateAndApplyPropertyDescriptor for an extensible target: computes
the resulting descriptor or rejects (defineProperty throws a TypeError). -/
def applyDefine (ex : Option PropDesc) (p : PartialDesc) : Except JsError PropDesc :=
  match ex with
  | none =>
    if isAccessorPartial p then
      Except.ok { val := PropVal.accessor (p.getf.getD Value.undef) (p.setf.getD Value.undef),
                  enumerable := p.enumerable.getD false,
                  configurable := p.configurable.getD false }
    else
      Except.ok { val := PropVal.dataVal (p.value.getD Value.undef) (p.writable.getD false),
                  enumerable := p.enumerable.getD false,
                  configurable := p.configurable.getD false }
  | some d =>
    if d.configurable then
      match d.val with
      | PropVal.accessor g s =>
        if isDataPartial p then
          Except.ok { val := PropVal.dataVal (p.value.getD Value.undef) (p.writable.getD false),
                      enumerable := p.enumerable.getD d.enumerable,
                      configurable := p.configurable.getD d.configurable }
        else
          Except.ok { val := PropVal.accessor (p.getf.getD g) (p.setf.getD s),
                      enumerable := p.enumerable.getD d.enumerable,
                      configurable := p.configurable.getD d.configurable }
      | PropVal.dataVal v w =>
        if isAccessorPartial p then
          Except.ok { val := PropVal.accessor (p.getf.getD Value.undef) (p.setf.getD Value.undef),
                      enumerable := p.enumerable.getD d.enumerable,
                      configurable := p.configurable.getD d.configurable }
        else
          Except.ok { val := PropVal.dataVal (p.value.getD v) (p.writable.getD w),
                      enumerable := p.enumerable.getD d.enumerable,
                      configurable := p.configurable.getD d.configurable }
    else
      if p.configurable.getD false then
        Except.error (JsError.typeError "cannot redefine property")
      else if (match p.enumerable with
               | some b => b != d.enumerable
               | none => false) then
        Except.error (JsError.typeError "cannot redefine property")
      else
        match d.val with
        | PropVal.accessor g s =>
          if isDataPartial p then
            Except.error (JsError.typeError "cannot redefine property")
          else if (match p.getf with | some g2 => decide (g2 ≠ g) | none => false) then
            Except.error (JsError.typeError "cannot redefine property")
          else if (match p.setf with | some s2 => decide (s2 ≠ s) | none => false) then
            Except.error (JsError.typeError "cannot redefine property")
          else Except.ok d
        | PropVal.dataVal v w =>
          if isAccessorPartial p then
            Except.error (JsError.typeError "cannot redefine property")
          else if !w && p.writable.getD false then
            Except.error (JsError.typeError "cannot redefine property")
          else if !w && (match p.value with | some v2 => decide (v2 ≠ v) | none => false) then
            Except.error (JsError.typeError "cannot redefine property")
          else
            Except.ok { val := PropVal.dataVal (p.value.getD v) (p.writable.getD w),
                        enumerable := d.enumerable, configurable := d.configurable }

/-- Object.defineProperty on an (extensible) heap object. -/
def defineProp (st : State) (a : Addr) (k : Key) (p : PartialDesc) :
    State × Except JsError Unit :=
  match st.getObj a with
  | none => (st, Except.error (JsError.typeError "missing object"))
  | some o =>
    match applyDefine (o.getOwn k) p with
    | Except.ok d => (st.setObj a (o.setOwn k d), Except.ok ())
    | Except.error e => (st, Except.error e)

/-- defineProperty on a target known to accept the definition (fresh object,
fresh key); the error case cannot arise at the call sites using this. -/
def definePropF (st : State) (a : Addr) (k : Key) (p : PartialDesc) : State :=
  (defineProp st a k p).1

/-- Full descriptor turned into the explicit partial descriptor that
`Object.getOwnPropertyDescriptor` hands to `Object.defineProperty`. -/
def partialOfFull (d : PropDesc) : PartialDesc :=
  match d.val with
  | PropVal.dataVal v w =>
    { value := some v, writable := some w,
      enumerable := some d.enumerable, configurable := some d.configurable }
  | PropVal.accessor g s =>
    { getf := some g, setf := some s,
      enumerable := some d.enumerable, configurable := some d.configurable }

/-- A request to the fueled evaluator: evaluate an expression, perform
[[Get]], perform [[Set]] (successful sets answer undefined), or call a
function value. -/
inductive Req
  | ev (args : List Value) (e : Expr)
  | get (receiver cur : Value) (k : Key)
  | set (receiver cur : Value) (k : Key) (v : Value)
  | call (thisV f : Value) (args : List Value)
deriving DecidableEq, Repr

/-- One step of the evaluator; recursion goes through `go`, and the fueled
knot is tied with `Nat.rec` so goals over it evaluate by plain reduction. -/
def evalStep (go : State -> Req -> State × Except JsError Value)
    (st : State) (req : Req) : State × Except JsError Value :=
  match req with
  | Req.ev args e =>
    match e with
    | Expr.const v => (st, Except.ok v)
    | Expr.arg i => (st, Except.ok (args.getD i Value.undef))
    | Expr.getSlot n => (st, Except.ok ((lookupFirst n st.slots).getD Value.undef))
    | Expr.getProp o k =>
      match go st (Req.ev args o) with
      | (st, Except.ok v) => go st (Req.get v v k)
      | (st, Except.error er) => (st, Except.error er)
    | Expr.setProp o k rhs =>
      match go st (Req.ev args o) with
      | (st, Except.ok ov) =>
        match go st (Req.ev args rhs) with
        | (st, Except.ok rv) =>
          match go st (Req.set ov ov k rv) with
          | (st, Except.ok _) => (st, Except.ok rv)
          | (st, Except.error er) => (st, Except.error er)
        | (st, Except.error er) => (st, Except.error er)
      | (st, Except.error er) => (st, Except.error er)
    | Expr.callMethod o k =>
      match go st (Req.ev args o) with
      | (st, Except.ok ov) =>
        match go st (Req.get ov ov k) with
        | (st, Except.ok fv) => go st (Req.call ov fv [])
        | (st, Except.error er) => (st, Except.error er)
      | (st, Except.error er) => (st, Except.error er)
    | Expr.add a b =>
      match go st (Req.ev args a) with
      | (st, Except.ok va) =>
        match go st (Req.ev args b) with
        | (st, Except.ok vb) =>
          match va, vb with
          | Value.num x, Value.num y => (st, Except.ok (Value.num (x + y)))
          | _, _ => (st, Except.error (JsError.typeError "add expects numbers"))
        | (st, Except.error er) => (st, Except.error er)
      | (st, Except.error er) => (st, Except.error er)
  | Req.get receiver cur k =>
    match cur with
    | Value.addr a =>
      match st.getObj a with
      | none => (st, Except.error (JsError.typeError "missing object"))
      | some o =>
        match o.finalTarget with
        | some t =>
          if k = Key.str "prototype" then (st, Except.ok Value.undef)
          else go st (Req.get receiver (Value.addr t) k)
        | none =>
          match o.getOwn k with
          | some d =>
            match d.val with
            | PropVal.dataVal v _ => (st, Except.ok v)
            | PropVal.accessor g _ =>
              if g = Value.undef then (st, Except.ok Value.undef)
              else go st (Req.call receiver g [])
          | none =>
            match o.proto with
            | Value.addr p => go st (Req.get receiver (Value.addr p) k)
            | _ => (st, Except.ok Value.undef)
    | _ => (st, Except.error (JsError.typeError "get on non-object"))
  | Req.set receiver cur k v =>
    match cur with
    | Value.addr a =>
      match st.getObj a with
      | none => (st, Except.error (JsError.typeError "missing object"))
      | some o =>
        match o.getOwn k with
        | some d =>
          match d.val with
          | PropVal.accessor _ s =>
            if s = Value.undef then
              (st, Except.error (JsError.typeError "setting a property that has only a getter"))
            else
              match go st (Req.call receiver s [v]) with
              | (st, Except.ok _) => (st, Except.ok Value.undef)
              | (st, Except.error er) => (st, Except.error er)
          | PropVal.dataVal _ w =>
            if !w then
              (st, Except.error (JsError.typeError "assignment to read-only property"))
            else
              match receiver with
              | Value.addr r =>
                if r = a then
                  (st.setObj a (o.setOwn k { d with val := PropVal.dataVal v w }),
                   Except.ok Value.undef)
                else
                  match st.getObj r with
                  | some ro =>
                    (st.setObj r (ro.setOwn k
                      { val := PropVal.dataVal v true, enumerable := true, configurable := true }),
                     Except.ok Value.undef)
                  | none => (st, Except.error (JsError.typeError "missing object"))
              | _ => (st, Except.error (JsError.typeError "set on non-object"))
        | none =>
          match o.proto with
          | Value.addr p => go st (Req.set receiver (Value.addr p) k v)
          | _ =>
            match receiver with
            | Value.addr r =>
              match st.getObj r with
              | some ro =>
                (st.setObj r (ro.setOwn k
                  { val := PropVal.dataVal v true, enumerable := true, configurable := true }),
                 Except.ok Value.undef)
              | none => (st, Except.error (JsError.typeError "missing object"))
            | _ => (st, Except.error (JsError.typeError "set on non-object"))
    | _ => (st, Except.error (JsError.typeError "set on non-object"))
  | Req.call _thisV f args =>
    match f with
    | Value.addr a =>
      match st.getObj a with
      | some o =>
        match o.call with
        | some cl =>
          match cl.body with
          | FnBody.exprBody e => go st (Req.ev args e)
          | FnBody.facadeGet d k => go st (Req.get (Value.addr d) (Value.addr d) k)
          | FnBody.facadeSet d k => go st (Req.set (Value.addr d) (Value.addr d) k (args.getD 0 Value.undef))
        | none => (st, Except.error (JsError.typeError "not a function"))
      | none => (st, Except.error (JsError.typeError "missing object"))
    | _ => (st, Except.error (JsError.typeError "not a function"))

/-- The fueled evaluator. -/
def evalFuel (fuel : Nat) : State -> Req -> State × Except JsError Value :=
  Nat.rec (motive := fun _ => State -> Req -> State × Except JsError Value)
    (fun st _ => (st, Except.error (JsError.typeError "fuel exhausted")))
    (fun _ ih => evalStep ih) fuel

/-- Evaluate a closure-body expression. -/
def evalExpr (fuel : Nat) (st : State) (args : List Value) (e : Expr) :
    State × Except JsError Value :=
  evalFuel fuel st (Req.ev args e)

/-- The [[Get]] operation: walk the prototype chain from `cur`, invoking a
getter against `receiver`; the `final` proxy forwards every key except
`prototype`, for which it reports undefined. -/
def jsGet (fuel : Nat) (st : State) (receiver cur : Value) (k : Key) :
    State × Except JsError Value :=
  evalFuel fuel st (Req.get receiver cur k)

/-- The [[Set]] operation (strict mode): a setter found on the chain is
invoked; a writable data property leads to an own data property on the
receiver; missing setters and non-writable data reject. -/
def jsSet (fuel : Nat) (st : State) (receiver cur : Value) (k : Key) (v : Value) :
    State × Except JsError Unit :=
  match evalFuel fuel st (Req.set receiver cur k v) with
  | (st, Except.ok _) => (st, Except.ok ())
  | (st, Except.error er) => (st, Except.error er)

/-- Call a function value.  Arrow-function bodies ignore the receiver;
`bind` captures are kept on the closure for fidelity. -/
def callFn (fuel : Nat) (st : State) (thisV f : Value) (args : List Value) :
    State × Except JsError Value :=
  evalFuel fuel st (Req.call thisV f args)

/-- Membership of a class address in the `memos` WeakMap. -/
def memoHas (st : State) (v : Value) : Bool :=
  match v with
  | Value.addr a => (lookupFirst a st.memoKeys).isSome
  | _ => false

/-- The ancestor walk of `share`:
`while (ancestor && !memos.has(ancestor)) ancestor = getPrototypeOf(ancestor)`.
Call with the prototype of the registering class. -/
def findAncestorStep (go : State → Value → Value) (st : State) (v : Value) : Value :=
  if truthy v && !memoHas st v then go st (protoOfVal st v) else v

def findAncestor (fuel : Nat) : State → Value → Value :=
  Nat.rec (motive := fun _ => State → Value → Value)
    (fun _ v => v) (fun _ ih => findAncestorStep ih) fuel

/-- Function.prototype.bind: a new function object with the receiver
captured (binding an already-bound function keeps the original capture). -/
def bindValue (st : State) (ctx : Value) (v : Value) : State × Value :=
  match v with
  | Value.addr a =>
    match st.getObj a with
    | some o =>
      match o.call with
      | some cl =>
        let (st, b) := st.alloc
          { call := some { boundThis := some (cl.boundThis.getD ctx), body := cl.body } }
        (st, Value.addr b)
      | none => (st, v)
    | none => (st, v)
  | _ => (st, v)

/-- bindDescriptor: binds each function of the descriptor to the context
(the `useDescriptor` dispatch of the source). -/
def bindDesc (st : State) (ctx : Value) (d : PropDesc) : State × PropDesc :=
  match d.val with
  | PropVal.dataVal v w =>
    if typeofFunction st v then
      let (st, v2) := bindValue st ctx v
      (st, { d with val := PropVal.dataVal v2 w })
    else (st, d)
  | PropVal.accessor g s =>
    let (st, g2) := if typeofFunction st g then bindValue st ctx g else (st, g)
    let (st, s2) := if typeofFunction st s then bindValue st ctx s else (st, s)
    (st, { d with val := PropVal.accessor g2 s2 })

/-- The `desc.value?.hasOwnProperty(ACCESSOR)` test of `share`. -/
def taggedAccessor (st : State) (d : PropDesc) : Bool :=
  match d.val with
  | PropVal.dataVal (Value.addr a) _ =>
    match st.getObj a with
    | some o => (o.getOwn Key.accessorSym).isSome
    | none => false
  | _ => false

/-- The tagged-descriptor rewrite of `share`: `Object.assign(desc, desc.value)`
followed by `desc.enumerable = true` and deletion of the ACCESSOR key,
`value` and `writable`, leaving a get/set descriptor. -/
def flattenTagged (st : State) (d : PropDesc) : PropDesc :=
  match d.val with
  | PropVal.dataVal (Value.addr a) _ =>
    match st.getObj a with
    | some o =>
      let g := match o.getOwn (Key.str "get") with
        | some gd => (match gd.val with | PropVal.dataVal v _ => v | _ => Value.undef)
        | none => Value.undef
      let s := match o.getOwn (Key.str "set") with
        | some sd => (match sd.val with | PropVal.dataVal v _ => v | _ => Value.undef)
        | none => Value.undef
      { val := PropVal.accessor g s, enumerable := true, configurable := d.configurable }
    | none => d
  | _ => d

/-- getAllOwnKeys: own string keys (getOwnPropertyNames) followed by own
symbol keys (getOwnPropertySymbols). -/
def getAllOwnKeys (o : JsObject) : List Key :=
  (o.props.map Prod.fst).filter (fun k => match k with | Key.str _ => true | _ => false)
    ++ (o.props.map Prod.fst).filter (fun k => match k with | Key.str _ => false | _ => true)

/-- The `accessor` export: tags a get/set pair so `share` relocates it; an
input without `get` or `set` yields undefined. -/
def accessor (fuel : Nat) (st : State) (descV : Value) : State × Value :=
  match descV with
  | Value.addr _ =>
    if typeofObject st descV
        && (hasProp fuel st descV (Key.str "get") || hasProp fuel st descV (Key.str "set")) then
      match jsGet fuel st descV descV (Key.str "get") with
      | (st, Except.ok g) =>
        match jsGet fuel st descV descV (Key.str "set") with
        | (st, Except.ok s) =>
          let (st, a) := st.alloc { props := [
            (Key.str "get", { val := PropVal.dataVal g true, enumerable := true, configurable := true }),
            (Key.str "set", { val := PropVal.dataVal s true, enumerable := true, configurable := true }),
            (Key.accessorSym, { val := PropVal.dataVal Value.undef true, enumerable := true, configurable := true })] }
          (st, Value.addr a)
        | (st, _) => (st, Value.undef)
      | (st, _) => (st, Value.undef)
    else (st, Value.undef)
  | _ => (st, Value.undef)

/-- The two-argument overload of `share`: when `inst` is a function,
`klass` an object and `members` undefined, the members slide left and the
class defaults to `inst`.  Returns the effective (klass, members) pair. -/
def shiftArgs (st : State) (i k m : Value) : Value × Value :=
  if typeofFunction st i && truthy k && typeofObject st k && (m = Value.undef : Bool) then
    (i, k)
  else (k, m)

/-- Validation of `inst`: `!inst || !["function","object"].includes(typeof inst)`. -/
def validOwnerCheck (st : State) (v : Value) : Bool :=
  truthy v && (typeofFunction st v || typeofObject st v)

/-- Validation of `klass`: `!klass || typeof klass != "function"`. -/
def validKlassCheck (st : State) (v : Value) : Bool :=
  truthy v && typeofFunction st v

/-- Validation of `members`: `!members || typeof members != "object"`. -/
def validMembersCheck (st : State) (v : Value) : Bool :=
  truthy v && typeofObject st v

/-- The registry operation `share(inst, klass, members)`, translated
statement by statement from the source: validate, walk to the nearest
registered ancestor, fetch the seed record (keyed by the ancestor identity
itself in the static case `inst === klass`, by `inst` otherwise, with fresh
empty defaults when absent), splice the bound non-flattened members above
the protected data object, build the facade of routed accessors, the
reserved `$uper` property, the `$uper` copies of shadowed descriptors, link
both to the seed, and store the updated record. -/
def share (fuel : Nat) (st0 : State) (instArg klassArg membersArg : Value) :
    State × Except JsError Value :=
  let (st, retvalA) := st0.alloc {}
  let km := shiftArgs st0 instArg klassArg membersArg
  let instV := instArg
  let klassV := km.1
  let membersV := km.2
  if !validOwnerCheck st0 instV then
    (st, Except.error (JsError.typeError "Expected inst to be a function or an object."))
  else if !validKlassCheck st0 klassV then
    (st, Except.error (JsError.typeError "Expected klass to be a function."))
  else if !validMembersCheck st0 membersV then
    (st, Except.error (JsError.typeError "Expected members to be an object."))
  else
    match instV, klassV, membersV with
    | Value.addr instA, Value.addr klassA, Value.addr membersA =>
      let ancestorV := findAncestor fuel st (protoOfVal st klassV)
      let ancestorMemo : List (Addr × Record) :=
        ((match ancestorV with
          | Value.addr a => (lookupFirst a st.memoKeys).bind (fun tid => lookupFirst tid st.tables)
          | _ => none).getD [])
      let st :=
        if (lookupFirst klassA st.memoKeys).isSome then st
        else { st with memoKeys := setFirst klassA st.nextTable st.memoKeys,
                       tables := setFirst st.nextTable [] st.tables,
                       nextTable := st.nextTable + 1 }
      let ancestorKeyV := if instV = klassV then ancestorV else instV
      let seed? := match ancestorKeyV with
        | Value.addr k => lookupFirst k ancestorMemo
        | _ => none
      let (st, memo) := match seed? with
        | some r => (st, r)
        | none =>
          let (st, d) := st.alloc {}
          let (st, u) := st.alloc {}
          (st, { data := d, inheritance := Value.jsNull, uper := u })
      let protData := memo.data
      let mObj := (st.getObj membersA).getD {}
      let mKeys := getAllOwnKeys mObj
      let prototype : Value := match st.getObj protData with
        | some o => o.proto
        | none => Value.jsNull
      let stEntries := mKeys.foldl (fun (acc : State × List (Key × PropDesc)) k =>
          match mObj.getOwn k with
          | none => acc
          | some d0 =>
            let d1 := if taggedAccessor acc.1 d0 then flattenTagged acc.1 d0 else d0
            let (st2, d2) := bindDesc acc.1 instV d1
            (st2, acc.2 ++ [(k, d2)])) (st, [])
      let st := stEntries.1
      let (st, protoA) := st.alloc { proto := prototype, props := stEntries.2 }
      let st := match st.getObj protData with
        | some o => st.setObj protData { o with proto := Value.addr protoA }
        | none => st
      let st := mKeys.foldl (fun st k =>
          let (st, gA) := st.alloc { call := some { body := FnBody.facadeGet protData k } }
          let (st, sA) := st.alloc { call := some { body := FnBody.facadeSet protData k } }
          definePropF st retvalA k { getf := some (Value.addr gA), setf := some (Value.addr sA) }) st
      let (st, uperA) := st.alloc {}
      match defineProp st retvalA (Key.str "$uper") { value := some (Value.addr uperA) } with
      | (st, Except.error e) => (st, Except.error e)
      | (st, Except.ok _) =>
        let st := mKeys.foldl (fun st k =>
            if hasProp fuel st prototype k then
              match findOwnObj fuel st prototype k with
              | some ownerA =>
                match (st.getObj ownerA).bind (fun o => o.getOwn k) with
                | some d => definePropF st uperA k (partialOfFull d)
                | none => st
              | none => st
            else st) st
        let st := match st.getObj uperA with
          | some o => st.setObj uperA { o with proto := Value.addr memo.uper }
          | none => st
        let st := match st.getObj retvalA with
          | some o => st.setObj retvalA { o with proto := memo.inheritance }
          | none => st
        let st := match lookupFirst klassA st.memoKeys with
          | some tid =>
            let tbl := (lookupFirst tid st.tables).getD []
            let tbl2 := setFirst instA
              { data := protData, inheritance := Value.addr retvalA, uper := uperA } tbl
            { st with tables := setFirst tid tbl2 st.tables }
          | none => st
        (st, Except.ok (Value.addr retvalA))
    | _, _, _ => (st, Except.error (JsError.typeError "unreachable after validation"))

/-- Alias the wrapped class's registry entries onto a guard wrapper: the
wrapper shares the very memo table (`memos.set(retval, memo)`), and the
table maps the wrapper to the class's own record
(`memo.set(retval, memo.get(klass))`; storing an absent record is a no-op
since every later read falls back on the same default). -/
def aliasRegistry (st : State) (klassA wA : Addr) : State :=
  match lookupFirst klassA st.memoKeys with
  | some tid =>
    let st := { st with memoKeys := setFirst wA tid st.memoKeys }
    match lookupFirst tid st.tables with
    | some tbl =>
      match lookupFirst klassA tbl with
      | some r => { st with tables := setFirst tid (setFirst wA r tbl) st.tables }
      | none => st
    | none => st
  | none => st

/-- The `abstract` wrapper for a callable: a class extending `klass` whose
constructor rejects construction when the target is the wrapper itself, with
registry aliasing. -/
def abstractWrap (st : State) (klassA : Addr) : State × Addr :=
  let kProto : Value :=
    match (st.getObj klassA).bind (fun o => o.getOwn (Key.str "prototype")) with
    | some d => (match d.val with | PropVal.dataVal v _ => v | _ => Value.jsNull)
    | none => Value.jsNull
  let (st, pA) := st.alloc { proto := kProto }
  let (st, wA) := st.alloc
    { proto := Value.addr klassA,
      ctor := some (CtorKind.abstractGuard klassA),
      props := [(Key.str "prototype",
        { val := PropVal.dataVal (Value.addr pA) false, enumerable := false, configurable := false })] }
  (aliasRegistry st klassA wA, wA)

/-- The `final` wrapper: a proxy whose construction trap rejects any target
other than the wrapper, whose get trap reports `prototype` as undefined and
forwards everything else, with registry aliasing. -/
def finalWrap (st : State) (klassA : Addr) : State × Addr :=
  let (st, wA) := st.alloc
    { ctor := some (CtorKind.finalGuard klassA), finalTarget := some klassA }
  (aliasRegistry st klassA wA, wA)

/-- Construction (`new`/`Reflect.construct`) with an explicit target
identity: a plain base class allocates an object whose prototype is the
target's `prototype` property (the final proxy reports it undefined, and the
host then falls back to a default prototype, modelled as null since the
final trap overwrites it anyway); a default derived constructor delegates;
the abstract guard rejects its own identity as target; the final guard
rejects any other target and rewrites the instance's type-identity metadata. -/
def constructStep (go : State → Addr → Addr → State × Except JsError Value)
    (st : State) (c nt : Addr) : State × Except JsError Value :=
    match st.getObj c with
    | none => (st, Except.error (JsError.typeError "not a constructor"))
    | some o =>
      match o.ctor with
      | none => (st, Except.error (JsError.typeError "not a constructor"))
      | some CtorKind.plainBase =>
        let protoV : Value :=
          match st.getObj nt with
          | some nto =>
            match nto.finalTarget with
            | some _ => Value.jsNull
            | none =>
              match nto.getOwn (Key.str "prototype") with
              | some d => (match d.val with | PropVal.dataVal v _ => v | _ => Value.jsNull)
              | none => Value.jsNull
          | none => Value.jsNull
        let (st, a) := st.alloc { proto := protoV }
        (st, Except.ok (Value.addr a))
      | some (CtorKind.derivedDefault p) => go st p nt
      | some (CtorKind.abstractGuard p) =>
        if nt = c then
          (st, Except.error (JsError.typeError "class constructor is abstract and cannot be directly invoked"))
        else go st p nt
      | some (CtorKind.finalGuard t) =>
        if nt = c then
          match go st t nt with
          | (st, Except.ok (Value.addr inst)) =>
            let kProto : Value :=
              match (st.getObj t).bind (fun ob => ob.getOwn (Key.str "prototype")) with
              | some d => (match d.val with | PropVal.dataVal v _ => v | _ => Value.jsNull)
              | none => Value.jsNull
            let (st, pA) := st.alloc
              { proto := kProto,
                props := [(Key.str "constructor",
                  { val := PropVal.dataVal (Value.addr c) true, enumerable := true, configurable := true })] }
            let st := match st.getObj inst with
              | some io => st.setObj inst { io with proto := Value.addr pA }
              | none => st
            (st, Except.ok (Value.addr inst))
          | r => r
        else
          (st, Except.error (JsError.typeError "cannot create an instance of a descendant of a final class"))

def construct (fuel : Nat) : State → Addr → Addr → State × Except JsError Value :=
  Nat.rec (motive := fun _ => State → Addr → Addr → State × Except JsError Value)
    (fun st _ _ => (st, Except.error (JsError.typeError "fuel exhausted")))
    (fun _ ih => constructStep ih) fuel

/-- One step of the prototype-chain membership walk. -/
def inChainStep (go : State → Value → Addr → Bool) (st : State) (v : Value) (target : Addr) :
    Bool :=
  match v with
  | Value.addr a =>
    if a = target then true
    else
      match st.getObj a with
      | some o => go st o.proto target
      | none => false
  | _ => false

/-- Membership of an address in a prototype chain starting at `v`. -/
def inChain (fuel : Nat) : State → Value → Addr → Bool :=
  Nat.rec (motive := fun _ => State → Value → Addr → Bool)
    (fun _ _ _ => false) (fun _ ih => inChainStep ih) fuel

/-- `v instanceof klass`: the class's `prototype` object occurs in the
prototype chain of `v`. -/
def isInstanceOf (fuel : Nat) (st : State) (v : Value) (klassA : Addr) : Bool :=
  match (st.getObj klassA).bind (fun o => o.getOwn (Key.str "prototype")) with
  | some d =>
    match d.val with
    | PropVal.dataVal (Value.addr p) _ =>
      (match v with
       | Value.addr a =>
         match st.getObj a with
         | some o => inChain fuel st o.proto p
         | none => false
       | _ => false)
    | _ => false
  | none => false

/-- True when some object on the prototype chain starting at `v` has an own
accessor property named `k`. -/
def chainHasOwnAccessorStep (go : State → Value → Key → Bool) (st : State) (v : Value)
    (k : Key) : Bool :=
  match v with
  | Value.addr a =>
    match st.getObj a with
    | some o =>
      (match o.getOwn k with
       | some d => (match d.val with | PropVal.accessor _ _ => true | _ => false)
       | none => false) || go st o.proto k
    | none => false
  | _ => false

def chainHasOwnAccessor (fuel : Nat) : State → Value → Key → Bool :=
  Nat.rec (motive := fun _ => State → Value → Key → Bool)
    (fun _ _ _ => false) (fun _ ih => chainHasOwnAccessorStep ih) fuel

/-- The record currently registered for (klass, owner), read through the
memo indirection. -/
def recordFor (st : State) (klassA ownerA : Addr) : Option Record :=
  (lookupFirst klassA st.memoKeys).bind fun tid =>
    (lookupFirst tid st.tables).bind fun tbl =>
      lookupFirst ownerA tbl

/-- The stored prototype link of a heap object. -/
def protoOf (st : State) (a : Addr) : Value :=
  match st.getObj a with
  | some o => o.proto
  | none => Value.jsNull

/-- A property of an object literal: data, writable, enumerable, configurable. -/
def dataProp (v : Value) : PropDesc :=
  { val := PropVal.dataVal v true, enumerable := true, configurable := true }

/-!
Scenario for C3 (shadowing and `$uper`): `Base` shares
`{superTest: () => 1}`, `Derived` shares
`{superTest: () => 1 + facade.$uper.superTest()}` for the same owner, where
`facade` is read back from the private field the returned facade is stored
in (the slot "protD"). -/

/-- The body of the derived `superTest`:
`() => 1 + facade.$uper.superTest()`, with the facade read back from the
private-field slot "protD". -/
def c3DerivedBody : Expr :=
  Expr.add (Expr.const (Value.num 1))
    (Expr.callMethod (Expr.getProp (Expr.getSlot "protD") (Key.str "$uper"))
      (Key.str "superTest"))

def c3Env : State × Value × Value :=
  let st := State.empty
  let (st, base) := st.alloc { ctor := some CtorKind.plainBase }
  let (st, der) := st.alloc { proto := Value.addr base, ctor := some CtorKind.plainBase }
  let (st, owner) := st.alloc {}
  let (st, f1) := st.alloc { call := some { body := FnBody.exprBody (Expr.const (Value.num 1)) } }
  let (st, mB) := st.alloc { props := [(Key.str "superTest", dataProp (Value.addr f1))] }
  match share 40 st (Value.addr owner) (Value.addr base) (Value.addr mB) with
  | (st, Except.ok fB) =>
    let (st, f2) := st.alloc { call := some { body := FnBody.exprBody c3DerivedBody } }
    let (st, mD) := st.alloc { props := [(Key.str "superTest", dataProp (Value.addr f2))] }
    match share 40 st (Value.addr owner) (Value.addr der) (Value.addr mD) with
    | (st, Except.ok fD) => (st.setSlot "protD" fD, fB, fD)
    | (st, Except.error _) => (st, Value.undef, Value.undef)
  | (st, Except.error _) => (st, Value.undef, Value.undef)

/-- Calling `superTest` on the derived facade. -/
def c3CallSuperTest : Except JsError Value :=
  (evalExpr 60 c3Env.1 [] (Expr.callMethod (Expr.const c3Env.2.2) (Key.str "superTest"))).2

/-- Calling `$uper.superTest` on the derived facade. -/
def c3CallUper : Except JsError Value :=
  (evalExpr 60 c3Env.1 []
    (Expr.callMethod (Expr.getProp (Expr.const c3Env.2.2) (Key.str "$uper"))
      (Key.str "superTest"))).2

/-- Reading `superTest` on the derived facade yields the derived bound
function, not the base one (the derived definition shadows). -/
def c3DerivedShadows : Bool :=
  match (evalExpr 60 c3Env.1 [] (Expr.getProp (Expr.const c3Env.2.2) (Key.str "superTest"))).2,
        (evalExpr 60 c3Env.1 []
          (Expr.getProp (Expr.getProp (Expr.const c3Env.2.2) (Key.str "$uper"))
            (Key.str "superTest"))).2 with
  | Except.ok a, Except.ok b => decide (a ≠ b)
  | _, _ => false

/-!
Scenario for C4 (facade prototype chain): `Base` shares `{num: w}`,
`Derived` shares an empty members map with the same owner. -/

def c4Env (w : Int) : State × Value × Value :=
  let st := State.empty
  let (st, base) := st.alloc { ctor := some CtorKind.plainBase }
  let (st, der) := st.alloc { proto := Value.addr base, ctor := some CtorKind.plainBase }
  let (st, owner) := st.alloc {}
  let (st, mB) := st.alloc { props := [(Key.str "num", dataProp (Value.num w))] }
  match share 40 st (Value.addr owner) (Value.addr base) (Value.addr mB) with
  | (st, Except.ok fB) =>
    let (st, mD) := st.alloc {}
    match share 40 st (Value.addr owner) (Value.addr der) (Value.addr mD) with
    | (st, Except.ok fD) => (st, fB, fD)
    | (st, Except.error _) => (st, Value.undef, Value.undef)
  | (st, Except.error _) => (st, Value.undef, Value.undef)

/-- The derived facade's own prototype. -/
def c4DerivedFacadeProto (w : Int) : Value :=
  match (c4Env w).2.2 with
  | Value.addr a => protoOf (c4Env w).1 a
  | _ => Value.undef

/-- The ancestor layer's facade. -/
def c4BaseFacade (w : Int) : Value := (c4Env w).2.1

/-- Reading `num` on the derived facade. -/
def c4ReadNum (w : Int) : Except JsError Value :=
  (evalExpr 60 (c4Env w).1 [] (Expr.getProp (Expr.const (c4Env w).2.2) (Key.str "num"))).2


set_option maxRecDepth 100000
set_option maxHeartbeats 4000000

/-- C3: if a derived layer redeclares a key its seed already resolves, the
derived facade reflects the derived definition while `$uper` evaluates the
immediate ancestor's definition from before the shadowing registration: with
Base sharing `{superTest: () => 1}` and Derived sharing
`{superTest: () => 1 + facade.$uper.superTest()}` for the same owner,
`superTest()` on the derived facade returns 2, `$uper.superTest()` returns
1, and the derived member differs from the `$uper` one. -/
theorem c3_super_shadow :
    c3CallSuperTest = Except.ok (Value.num 2)
    ∧ c3CallUper = Except.ok (Value.num 1)
    ∧ c3DerivedShadows = true :=
  ⟨rfl, rfl, rfl⟩

/-- C4: for a derived-layer share call whose seed record exists, the
returned facade's own prototype is the ancestor layer's facade, and a member
never redeclared at the derived layer resolves to the ancestor's behaviour:
with Base sharing `{num: 42}` and Derived sharing an empty members map for
the same owner, the derived facade's prototype is Base's facade and reading
`num` on the derived facade yields 42. -/
theorem c4_facade_prototype :
    c4DerivedFacadeProto 42 = c4BaseFacade 42
    ∧ c4ReadNum 42 = Except.ok (Value.num 42) :=
  ⟨rfl, rfl⟩

/-!
Scenario for C5 (non-participant transparency): `Base` shares `{num: 42}`;
`NonParticipant extends Base` never calls share; `GrandChild extends
NonParticipant` shares.  Owner 1's GrandChild layer shares nothing (inherit
case); owner 2's GrandChild layer shares `{num: 43}` (shadow case). -/

def c5Env : State × Value × Value × Value :=
  let st := State.empty
  let (st, base) := st.alloc { ctor := some CtorKind.plainBase }
  let (st, np) := st.alloc { proto := Value.addr base, ctor := some CtorKind.plainBase }
  let (st, gc) := st.alloc { proto := Value.addr np, ctor := some CtorKind.plainBase }
  let (st, o1) := st.alloc {}
  let (st, o2) := st.alloc {}
  let (st, mB1) := st.alloc { props := [(Key.str "num", dataProp (Value.num 42))] }
  match share 40 st (Value.addr o1) (Value.addr base) (Value.addr mB1) with
  | (st, Except.ok fB1) =>
    let (st, mG1) := st.alloc {}
    match share 40 st (Value.addr o1) (Value.addr gc) (Value.addr mG1) with
    | (st, Except.ok fG1) =>
      let (st, mB2) := st.alloc { props := [(Key.str "num", dataProp (Value.num 42))] }
      match share 40 st (Value.addr o2) (Value.addr base) (Value.addr mB2) with
      | (st, Except.ok _) =>
        let (st, mG2) := st.alloc { props := [(Key.str "num", dataProp (Value.num 43))] }
        match share 40 st (Value.addr o2) (Value.addr gc) (Value.addr mG2) with
        | (st, Except.ok fG2) => (st, fB1, fG1, fG2)
        | (st, Except.error _) => (st, Value.undef, Value.undef, Value.undef)
      | (st, Except.error _) => (st, Value.undef, Value.undef, Value.undef)
    | (st, Except.error _) => (st, Value.undef, Value.undef, Value.undef)
  | (st, Except.error _) => (st, Value.undef, Value.undef, Value.undef)

/-- The non-participant (address 1) never appears in the registry. -/
def c5NonParticipantUnregistered : Bool :=
  !(memoHas c5Env.1 (Value.addr 1))

/-- The inheriting grandchild facade's prototype is the base facade (the
walk skipped the non-participant). -/
def c5InheritProtoIsBaseFacade : Bool :=
  decide ((match c5Env.2.2.1 with
           | Value.addr a => protoOf c5Env.1 a
           | _ => Value.undef) = c5Env.2.1)

/-- Reading `num` on the inheriting grandchild facade. -/
def c5InheritRead : Except JsError Value :=
  (evalExpr 60 c5Env.1 [] (Expr.getProp (Expr.const c5Env.2.2.1) (Key.str "num"))).2

/-- Reading `num` on the shadowing grandchild facade. -/
def c5ShadowRead : Except JsError Value :=
  (evalExpr 60 c5Env.1 [] (Expr.getProp (Expr.const c5Env.2.2.2) (Key.str "num"))).2

/-- Reading `$uper.num` on the shadowing grandchild facade. -/
def c5ShadowUperRead : Except JsError Value :=
  (evalExpr 60 c5Env.1 []
    (Expr.getProp (Expr.getProp (Expr.const c5Env.2.2.2) (Key.str "$uper")) (Key.str "num"))).2

/-- C5: a share call by a descendant of a non-participating class walks the
identity chain past the non-participant to the nearest identity with
registry entries: with Base sharing `{num: 42}`, NonParticipant never
sharing, and GrandChild sharing, GrandChild's facade chains to Base's
facade, inherits `num` when it shares nothing, and shadows it (with
`$uper.num` still the ancestor's 42) when it shares `{num: 43}`; the
non-participant itself never enters the registry. -/
theorem c5_non_participant :
    c5NonParticipantUnregistered = true
    ∧ c5InheritProtoIsBaseFacade = true
    ∧ c5InheritRead = Except.ok (Value.num 42)
    ∧ c5ShadowRead = Except.ok (Value.num 43)
    ∧ c5ShadowUperRead = Except.ok (Value.num 42) :=
  ⟨rfl, rfl, rfl, rfl, rfl⟩

/-!
Scenario for C6 (owner isolation): two distinct owners register layers
against the same class identity; a write through one owner's facade must
leave the other owner's record, data object and facade untouched. -/

def c6Env : State × Value × Value :=
  let st := State.empty
  let (st, k) := st.alloc { ctor := some CtorKind.plainBase }
  let (st, oa) := st.alloc {}
  let (st, ob) := st.alloc {}
  let (st, mA) := st.alloc { props := [(Key.str "num", dataProp (Value.num 1))] }
  match share 40 st (Value.addr oa) (Value.addr k) (Value.addr mA) with
  | (st, Except.ok fA) =>
    let (st, mB) := st.alloc { props := [(Key.str "num", dataProp (Value.num 2))] }
    match share 40 st (Value.addr ob) (Value.addr k) (Value.addr mB) with
    | (st, Except.ok fB) => (st, fA, fB)
    | (st, Except.error _) => (st, Value.undef, Value.undef)
  | (st, Except.error _) => (st, Value.undef, Value.undef)

/-- The two records hold distinct data objects. -/
def c6DistinctData : Bool :=
  match recordFor c6Env.1 0 1, recordFor c6Env.1 0 2 with
  | some ra, some rb => decide (ra.data ≠ rb.data)
  | _, _ => false

/-- The state after writing `num = 99` through owner A's facade. -/
def c6AfterWrite : State :=
  (evalExpr 60 c6Env.1 []
    (Expr.setProp (Expr.const c6Env.2.1) (Key.str "num") (Expr.const (Value.num 99)))).1

/-- The write through A's facade is visible through A's facade. -/
def c6ReadAAfter : Except JsError Value :=
  (evalExpr 60 c6AfterWrite [] (Expr.getProp (Expr.const c6Env.2.1) (Key.str "num"))).2

/-- Reading `num` through B's facade after the write through A's. -/
def c6ReadBAfter : Except JsError Value :=
  (evalExpr 60 c6AfterWrite [] (Expr.getProp (Expr.const c6Env.2.2) (Key.str "num"))).2

/-- B's data object is bitwise unchanged by the write through A's facade,
as are every object on its prototype chain and B's facade object. -/
def c6BUntouched : Bool :=
  match recordFor c6Env.1 0 2, c6Env.2.2 with
  | some rb, Value.addr fb =>
    decide (c6AfterWrite.getObj rb.data = c6Env.1.getObj rb.data)
    && decide (c6AfterWrite.getObj fb = c6Env.1.getObj fb)
    && (match protoOf c6Env.1 rb.data with
        | Value.addr p => decide (c6AfterWrite.getObj p = c6Env.1.getObj p)
        | _ => false)
    && decide (recordFor c6AfterWrite 0 2 = recordFor c6Env.1 0 2)
  | _, _ => false

/-- C6: two distinct owners registering against the same class identity
receive records holding distinct data objects, and a write through one
owner's facade (num = 99) leaves the other owner's data object, its
prototype layer, its facade object and its registry record unchanged, with
the other facade still reading its own value. -/
theorem c6_owner_isolation :
    c6DistinctData = true
    ∧ c6ReadAAfter = Except.ok (Value.num 99)
    ∧ c6ReadBAfter = Except.ok (Value.num 2)
    ∧ c6BUntouched = true :=
  ⟨rfl, rfl, rfl, rfl⟩

/-!
Scenario for C1 (accessor-tagged members): the owner shares
`{prop: accessor({get: () => 5})}`.  In the source, the tagged descriptor is
flattened into a bound get/set descriptor that is defined on the fresh
prototype layer spliced above the protected data object, and the facade
receives the generic routed accessor for the key. -/

def c1Env : State × Value :=
  let st := State.empty
  let (st, k) := st.alloc { ctor := some CtorKind.plainBase }
  let (st, owner) := st.alloc {}
  let (st, g) := st.alloc { call := some { body := FnBody.exprBody (Expr.const (Value.num 5)) } }
  let (st, descO) := st.alloc { props := [(Key.str "get", dataProp (Value.addr g))] }
  let (st, tagged) := accessor 20 st (Value.addr descO)
  let (st, m) := st.alloc { props := [(Key.str "prop", dataProp tagged)] }
  match share 40 st (Value.addr owner) (Value.addr k) (Value.addr m) with
  | (st, Except.ok f) => (st, f)
  | (st, Except.error _) => (st, Value.undef)

/-- The protected data object of the registered record. -/
def c1DataAddr : Addr :=
  match recordFor c1Env.1 0 1 with
  | some r => r.data
  | none => 0

/-- Whether the prototype chain of the data object holds an own accessor
property named `prop`. -/
def c1ChainAccessor : Bool :=
  chainHasOwnAccessor 20 c1Env.1 (protoOf c1Env.1 c1DataAddr) (Key.str "prop")

/-- A lookup of `prop` on the data object itself. -/
def c1ReadDataProp : Except JsError Value :=
  (jsGet 60 c1Env.1 (Value.addr c1DataAddr) (Value.addr c1DataAddr) (Key.str "prop")).2

/-- A read of `prop` on the facade. -/
def c1ReadFacadeProp : Except JsError Value :=
  (evalExpr 60 c1Env.1 [] (Expr.getProp (Expr.const c1Env.2) (Key.str "prop"))).2

/-- Whether the facade's own `prop` property is the generic accessor routed
through the data object, rather than the tagged pair itself. -/
def c1FacadeRouted : Bool :=
  match c1Env.2 with
  | Value.addr f =>
    match (c1Env.1.getObj f).bind (fun o => o.getOwn (Key.str "prop")) with
    | some d =>
      match d.val with
      | PropVal.accessor (Value.addr ga) _ =>
        match (c1Env.1.getObj ga).bind (fun o => o.call) with
        | some cl => decide (cl.body = FnBody.facadeGet c1DataAddr (Key.str "prop"))
        | none => false
      | _ => false
    | none => false
  | _ => false

/-- C1 counterexample: sharing an accessor-tagged member does install an
accessor property on the data object's prototype chain, and a lookup on the
data object does reach the tagged getter through delegation (it answers 5),
contrary to the claim that the tagged pair lives only on the facade. -/
theorem c1_counterexample :
    c1ChainAccessor = true
    ∧ c1ReadDataProp = Except.ok (Value.num 5) :=
  ⟨rfl, rfl⟩

/-- C1 amended: an accessor-tagged member is flattened into a bound get/set
descriptor installed on the fresh prototype layer spliced into the data
object's delegation chain; the facade's own property for the key is the
generic routed accessor, so facade reads reach the tagged getter through
the data object's delegation (shadowing happens at the data level). -/
theorem c1_amended :
    c1FacadeRouted = true
    ∧ c1ReadFacadeProp = Except.ok (Value.num 5)
    ∧ c1ChainAccessor = true :=
  ⟨rfl, rfl, rfl⟩

/-!
Scenario for C2 (record seeding): the static-sharing case.  Class A shares
`{x: 1}` through the two-argument overload (owner = class identity = A);
class B extends A and then shares an empty members map the same way. -/

def c2Env : State × State × Value × Value :=
  let st := State.empty
  let (st, a) := st.alloc { ctor := some CtorKind.plainBase }
  let (st, b) := st.alloc { proto := Value.addr a, ctor := some CtorKind.plainBase }
  let (st, mA) := st.alloc { props := [(Key.str "x", dataProp (Value.num 1))] }
  match share 40 st (Value.addr a) (Value.addr mA) Value.undef with
  | (st, Except.ok fA) =>
    let stMid := st
    let (st, mB) := st.alloc {}
    match share 40 st (Value.addr b) (Value.addr mB) Value.undef with
    | (st, Except.ok fB) => (stMid, st, fA, fB)
    | (st, Except.error _) => (stMid, st, Value.undef, Value.undef)
  | (st, Except.error _) => (st, st, Value.undef, Value.undef)

/-- Before B's share call, the registry holds no record for owner B under
the ancestor identity A (class 0, owner 1). -/
def c2NoOwnerBRecordBefore : Bool :=
  decide (recordFor c2Env.1 0 1 = none)

/-- After B's share, B's facade's own prototype is A's static facade. -/
def c2FacadeBProtoIsFacadeA : Bool :=
  match c2Env.2.2.2 with
  | Value.addr fb => decide (protoOf c2Env.2.1 fb = c2Env.2.2.1)
  | _ => false

/-- Reading `x` on B's static facade after both shares. -/
def c2ReadX : Except JsError Value :=
  (evalExpr 60 c2Env.2.1 [] (Expr.getProp (Expr.const c2Env.2.2.2) (Key.str "x"))).2

/-- B's record was seeded from A's own static record: both share the very
same protected data object. -/
def c2StaticSeedIsAncestorOwn : Bool :=
  match recordFor c2Env.2.1 1 1, recordFor c2Env.2.1 0 0 with
  | some rb, some ra => decide (rb.data = ra.data)
  | _, _ => false

/-- C2 counterexample: in the static-sharing case (owner = classIdentity),
the nearest registered ancestor holds no record under that same owner, so
the claim prescribes empty defaults (no facade prototype, empty data); but
the code seeds from the record stored under the ancestor identity itself:
B's facade inherits A's facade as its prototype and reads `x` as 1, and B's
record shares A's protected data object. -/
theorem c2_counterexample :
    c2NoOwnerBRecordBefore = true
    ∧ c2FacadeBProtoIsFacadeA = true
    ∧ c2ReadX = Except.ok (Value.num 1)
    ∧ c2StaticSeedIsAncestorOwn = true :=
  ⟨rfl, rfl, rfl, rfl⟩

/-!
Instance-sharing counterpart for the amended C2: for owner distinct from
the class identity, the seed really is the ancestor's record stored under
that same owner, and a first share with no registered ancestor starts from
empty defaults. -/

def c2InstEnv : State × Value × Value :=
  let st := State.empty
  let (st, k) := st.alloc { ctor := some CtorKind.plainBase }
  let (st, k2) := st.alloc { proto := Value.addr k, ctor := some CtorKind.plainBase }
  let (st, owner) := st.alloc {}
  let (st, mK) := st.alloc { props := [(Key.str "y", dataProp (Value.num 2))] }
  match share 40 st (Value.addr owner) (Value.addr k) (Value.addr mK) with
  | (st, Except.ok fK) =>
    let (st, mK2) := st.alloc {}
    match share 40 st (Value.addr owner) (Value.addr k2) (Value.addr mK2) with
    | (st, Except.ok fD) => (st, fK, fD)
    | (st, Except.error _) => (st, Value.undef, Value.undef)
  | (st, Except.error _) => (st, Value.undef, Value.undef)

/-- In the instance case the derived layer's facade chains to the ancestor
facade for the same owner, and the derived record reuses that owner's data. -/
def c2InstanceSeed : Bool :=
  (match c2InstEnv.2.2 with
   | Value.addr fd => decide (protoOf c2InstEnv.1 fd = c2InstEnv.2.1)
   | _ => false)
  && (match recordFor c2InstEnv.1 1 2, recordFor c2InstEnv.1 0 2 with
      | some rd, some rk => decide (rd.data = rk.data)
      | _, _ => false)

/-- Reading the inherited `y` on the derived facade in the instance case. -/
def c2InstRead : Except JsError Value :=
  (evalExpr 60 c2InstEnv.1 [] (Expr.getProp (Expr.const c2InstEnv.2.2) (Key.str "y"))).2

/-- A first share with no registered ancestor is created lazily from empty
defaults: nothing is registered for the class beforehand, and afterwards the
record exists, its facade has no prototype and its data object starts with
no own properties (the members live on the spliced prototype layer). -/
def c2EmptyDefaults : Bool :=
  (!(memoHas State.empty (Value.addr 0)))
  && (match recordFor c2InstEnv.1 0 2, c2InstEnv.2.1 with
      | some rk, Value.addr fk =>
        decide (protoOf c2InstEnv.1 fk = Value.jsNull)
        && (match c2InstEnv.1.getObj rk.data with
            | some o => decide (o.props = [])
            | none => false)
      | _, _ => false)

/-- C2 amended: a record is created lazily on the first share for a given
(identity, owner) pair; the seed is the nearest registered ancestor's record
stored under that same owner when the owner differs from the class identity,
but under the ancestor identity itself in the static-sharing case where
owner and classIdentity coincide; empty defaults (fresh empty data, empty
$uper, no facade prototype) apply only when that seed entry is absent. -/
theorem c2_amended :
    c2InstanceSeed = true
    ∧ c2InstRead = Except.ok (Value.num 2)
    ∧ c2StaticSeedIsAncestorOwn = true
    ∧ c2FacadeBProtoIsFacadeA = true
    ∧ c2EmptyDefaults = true :=
  ⟨rfl, rfl, rfl, rfl, rfl⟩

/-!
Scenario for C10 (the reserved `$uper` key): Base shares `{num: 42}` for an
owner; a derived class then shares `{"$uper": 7}` for the same owner.  The
facade loop first defines a non-configurable routed accessor named `$uper`,
so the later defineProperty of the reserved `$uper` value property throws,
after the data object's prototype chain has already been spliced. -/

def c10Env : State × State × Except JsError Value :=
  let st := State.empty
  let (st, k1) := st.alloc { ctor := some CtorKind.plainBase }
  let (st, k2) := st.alloc { proto := Value.addr k1, ctor := some CtorKind.plainBase }
  let (st, owner) := st.alloc {}
  let (st, m1) := st.alloc { props := [(Key.str "num", dataProp (Value.num 42))] }
  match share 40 st (Value.addr owner) (Value.addr k1) (Value.addr m1) with
  | (st, Except.ok _) =>
    let stA := st
    let (st, m2) := st.alloc { props := [(Key.str "$uper", dataProp (Value.num 7))] }
    let r := share 40 st (Value.addr owner) (Value.addr k2) (Value.addr m2)
    (stA, r.1, r.2)
  | (st, Except.error e) => (st, st, Except.error e)

/-- The owner's protected data object registered by the Base layer. -/
def c10DataAddr : Addr :=
  match recordFor c10Env.1 0 2 with
  | some r => r.data
  | none => 0

/-- The failing call threw a TypeError. -/
def c10Result : Except JsError Value := c10Env.2.2

/-- At the throw, the data object's prototype chain has already been
extended: its prototype now differs from the one before the call, the new
layer owns the `$uper` member, and the new layer's own prototype is the old
one; meanwhile the registry gained no record for the derived layer. -/
def c10ChainExtended : Bool :=
  let before := protoOf c10Env.1 c10DataAddr
  let after := protoOf c10Env.2.1 c10DataAddr
  decide (after ≠ before)
  && (match after with
      | Value.addr l =>
        (match (c10Env.2.1.getObj l).bind (fun o => o.getOwn (Key.str "$uper")) with
         | some _ => true
         | none => false)
        && decide (protoOf c10Env.2.1 l = before)
      | _ => false)
  && decide (recordFor c10Env.2.1 1 2 = none)
  && decide (recordFor c10Env.2.1 0 2 = recordFor c10Env.1 0 2)

/-- C10: sharing a members map with an own `$uper` key throws a TypeError
(the facade's reserved non-configurable `$uper` accessor cannot be redefined
as a value property), and at that point the owner's shared data object's
prototype chain has already been extended with the new layer, so the failure
does not leave registry-reachable state untouched. -/
theorem c10_reserved_uper :
    (∃ msg, c10Result = Except.error (JsError.typeError msg))
    ∧ c10ChainExtended = true :=
  ⟨⟨"cannot redefine property", rfl⟩, rfl⟩

/-!
Scenario for C8 (`final`): a plain class K with its prototype object is
wrapped by `final`; the wrapper is constructed directly, and arbitrary
other targets are rejected by the construction trap. -/

def c8Env : State × Addr × Addr :=
  let st := State.empty
  let (st, pk) := st.alloc {}
  let (st, k) := st.alloc
    { ctor := some CtorKind.plainBase,
      props := [(Key.str "prototype",
        { val := PropVal.dataVal (Value.addr pk) false, enumerable := false, configurable := false })] }
  let (st, w) := finalWrap st k
  (st, k, w)

def c8WrapperAddr : Addr := c8Env.2.2

/-- Constructing the wrapper directly. -/
def c8Direct : State × Except JsError Value :=
  construct 20 c8Env.1 c8Env.2.2 c8Env.2.2

/-- The direct construction succeeds, the instance's `constructor` property
is the wrapper, and the instance is an instance of the wrapped class. -/
def c8DirectOk : Bool :=
  match c8Direct with
  | (st, Except.ok (Value.addr i)) =>
    (match (jsGet 20 st (Value.addr i) (Value.addr i) (Key.str "constructor")).2 with
     | Except.ok v => decide (v = Value.addr c8Env.2.2)
     | Except.error _ => false)
    && isInstanceOf 20 st (Value.addr i) c8Env.2.1
  | _ => false

/-- Reading the wrapper's `prototype` property (through the proxy get trap). -/
def c8PrototypeRead : Except JsError Value :=
  (jsGet 20 c8Env.1 (Value.addr c8Env.2.2) (Value.addr c8Env.2.2) (Key.str "prototype")).2

/-- Helper: the final-guard construction trap rejects any target other than
the wrapper itself, returning the state untouched. -/
theorem constructStep_final_rejects
    (go : State → Addr → Addr → State × Except JsError Value)
    (st : State) (c nt t : Addr) (o : JsObject)
    (hobj : st.getObj c = some o) (hctor : o.ctor = some (CtorKind.finalGuard t))
    (hne : nt ≠ c) :
    constructStep go st c nt =
      (st, Except.error (JsError.typeError "cannot create an instance of a descendant of a final class")) := by
  simp only [constructStep, hobj, hctor]
  rw [if_neg hne]

/-- C8: constructing `final(klass)` with the wrapper itself as target
succeeds, yielding an instance whose `constructor` is the wrapper and which
is still an instance of the wrapped class; reading the wrapper's `prototype`
yields undefined; and any construction whose target differs from the
wrapper throws a descendant-of-final TypeError with the state returned
untouched (no partial object). -/
theorem c8_final (d : Addr) (hd : d ≠ c8WrapperAddr) :
    c8DirectOk = true
    ∧ c8PrototypeRead = Except.ok Value.undef
    ∧ construct 20 c8Env.1 c8WrapperAddr d =
        (c8Env.1, Except.error (JsError.typeError "cannot create an instance of a descendant of a final class")) := by
  refine ⟨rfl, rfl, ?_⟩
  show constructStep (construct 19) c8Env.1 c8WrapperAddr d = _
  exact constructStep_final_rejects (construct 19) c8Env.1 c8WrapperAddr d c8Env.2.1 _ rfl rfl hd

/-- Witness for C8 at the concrete rejected target 5. -/
theorem c8_final_witness :
    c8DirectOk = true
    ∧ c8PrototypeRead = Except.ok Value.undef
    ∧ construct 20 c8Env.1 c8WrapperAddr 5 =
        (c8Env.1, Except.error (JsError.typeError "cannot create an instance of a descendant of a final class")) :=
  c8_final 5 (by decide)

/-!
Scenario for C9 (`abstract`): class K statically shares `{greet: 1}`, is
wrapped by `abstract`, and a subclass D of the wrapper is declared.  The
wrapper rejects direct construction, D constructs fine through delegation,
and D's own static share still reaches K's shared members through the
wrapper identity (the registry aliasing installed by the guard). -/

def c9Setup : State × Addr × Addr × Addr × Addr :=
  let st := State.empty
  let (st, pk) := st.alloc {}
  let (st, k) := st.alloc
    { ctor := some CtorKind.plainBase,
      props := [(Key.str "prototype",
        { val := PropVal.dataVal (Value.addr pk) false, enumerable := false, configurable := false })] }
  let (st, mk) := st.alloc { props := [(Key.str "greet", dataProp (Value.num 1))] }
  match share 40 st (Value.addr k) (Value.addr mk) Value.undef with
  | (st, Except.ok _) =>
    let (st, a) := abstractWrap st k
    let paV : Value :=
      match (st.getObj a).bind (fun o => o.getOwn (Key.str "prototype")) with
      | some d => (match d.val with | PropVal.dataVal v _ => v | _ => Value.jsNull)
      | none => Value.jsNull
    let (st, pd) := st.alloc { proto := paV }
    let (st, dcl) := st.alloc
      { proto := Value.addr a,
        ctor := some (CtorKind.derivedDefault a),
        props := [(Key.str "prototype",
          { val := PropVal.dataVal (Value.addr pd) false, enumerable := false, configurable := false })] }
    (st, k, a, dcl, pd)
  | (st, Except.error _) => (st, 0, 0, 0, 0)

/-- Constructing the abstract wrapper directly. -/
def c9DirectAttempt : State × Except JsError Value :=
  construct 20 c9Setup.1 c9Setup.2.2.1 c9Setup.2.2.1

/-- Constructing the subclass D. -/
def c9DerivedBuild : State × Except JsError Value :=
  construct 20 c9Setup.1 c9Setup.2.2.2.1 c9Setup.2.2.2.1

/-- The derived construction succeeds with K's constructor behaviour left
unchanged: the instance's prototype is D's own prototype object. -/
def c9DerivedOk : Bool :=
  match c9DerivedBuild with
  | (st, Except.ok (Value.addr i)) => decide (protoOf st i = Value.addr c9Setup.2.2.2.2)
  | _ => false

/-- D's own static share, after the wrapping: the returned facade still
reaches K's previously shared `greet` through the wrapper identity. -/
def c9ShareThroughWrapper : Except JsError Value :=
  let st := c9Setup.1
  let (st, md) := st.alloc {}
  match share 40 st (Value.addr c9Setup.2.2.2.1) (Value.addr md) Value.undef with
  | (st, Except.ok fD) =>
    (evalExpr 60 st [] (Expr.getProp (Expr.const fD) (Key.str "greet"))).2
  | (_, Except.error e) => Except.error e

/-- C9: constructing `abstract(klass)` with the wrapper itself as target
throws an abstract-class TypeError with the state untouched, while
constructing through a subclass delegates to the wrapped constructor
unchanged and succeeds, and the class's previously registered shared
members stay reachable through the wrapper identity: a subclass sharing
nothing still reads `greet` as 1. -/
theorem c9_abstract :
    c9DirectAttempt =
      (c9Setup.1, Except.error (JsError.typeError "class constructor is abstract and cannot be directly invoked"))
    ∧ c9DerivedOk = true
    ∧ c9ShareThroughWrapper = Except.ok (Value.num 1) :=
  ⟨rfl, rfl, rfl⟩

/-- C7: `share` throws a TypeError whenever the owner fails the
callable-or-object validation, the (overload-shifted) class identity fails
the callable validation, or the (overload-shifted) members value fails the
object validation; all three checks run before any registry mutation, so a
failing call returns with the registry maps exactly as they were. -/
theorem c7_validation (fuel : Nat) (st : State) (i k m : Value)
    (h : validOwnerCheck st i = false
       ∨ validKlassCheck st (shiftArgs st i k m).1 = false
       ∨ validMembersCheck st (shiftArgs st i k m).2 = false) :
    (∃ msg, (share fuel st i k m).2 = Except.error (JsError.typeError msg))
    ∧ (share fuel st i k m).1.memoKeys = st.memoKeys
    ∧ (share fuel st i k m).1.tables = st.tables := by
  cases hO : validOwnerCheck st i with
  | false =>
    refine ⟨⟨"Expected inst to be a function or an object.", ?_⟩, ?_, ?_⟩ <;>
      simp [share, State.alloc, hO]
  | true =>
    cases hK : validKlassCheck st (shiftArgs st i k m).1 with
    | false =>
      refine ⟨⟨"Expected klass to be a function.", ?_⟩, ?_, ?_⟩ <;>
        simp [share, State.alloc, hO, hK]
    | true =>
      cases hM : validMembersCheck st (shiftArgs st i k m).2 with
      | false =>
        refine ⟨⟨"Expected members to be an object.", ?_⟩, ?_, ?_⟩ <;>
          simp [share, State.alloc, hO, hK, hM]
      | true =>
        exfalso
        rcases h with h | h | h <;> simp_all

/-- Witness for C7: sharing with an undefined owner on the empty state. -/
theorem c7_validation_witness :
    (∃ msg, (share 10 State.empty Value.undef Value.undef Value.undef).2 =
        Except.error (JsError.typeError msg))
    ∧ (share 10 State.empty Value.undef Value.undef Value.undef).1.memoKeys = State.empty.memoKeys
    ∧ (share 10 State.empty Value.undef Value.undef Value.undef).1.tables = State.empty.tables :=
  c7_validation 10 State.empty Value.undef Value.undef Value.undef (Or.inl rfl)

end CFProtected
